import Mathlib

/-!
Shallow embedding of `xobjects/context/context_pyopencl.py`: the PyOpenCL
device-buffer, kernel-binding and FFT-plan layer.  Device memory is modelled
as a list of byte values; the external `pyopencl`/OpenCL enqueue primitives
are modelled by their documented semantics (a host-device copy of `n` bytes at
`device_offset` succeeds exactly when the region `[offset, offset+n)` lies
inside the buffer, and otherwise the backend reports an invalid-value error,
which the spec's error taxonomy calls `RangeError`).  Byte offsets are natural
numbers, so the spec's `0 <= offset` requirement is intrinsic to the model.
-/

namespace XobjPyopencl

/-- Error kinds raised by the layer, in the spec's taxonomy (section 7).
`RangeError` is the backend invalid-value failure of an out-of-bounds
`enqueue_copy`; `ArgumentCountError` is the `AssertionError` from
`assert len(kwargs.keys()) == self.num_args`; `TypeError` is the
`AssertionError` from `assert isinstance(value, cla.Array)`; `ShapeError`
is the `AssertionError` from the shape/axis asserts in `FFTPyopencl.__init__`;
`KeyError`, `ValueError` and `NotImplementedError` are the Python exceptions
of the same names raised by the source. -/
inductive Err where
  | RangeError
  | ArgumentCountError
  | KeyError
  | TypeError
  | ValueError
  | NotImplementedError
  | ShapeError
  deriving DecidableEq, Repr

/-- `BufferPyopencl`: one contiguous device-memory region, modelled as the
list of its byte values.  The raw `cl.Buffer` handle of the source is the
`mem` field; its allocation size is `mem.length`. -/
structure BufferPyopencl where
  mem : List Nat
  deriving DecidableEq, Repr

/-- The buffer's capacity in bytes: the size the device allocation was made
with (`cl.Buffer(ctx, READ_WRITE, capacity)`). -/
def BufferPyopencl.capacity (b : BufferPyopencl) : Nat := b.mem.length

/-- Semantics of `cl.enqueue_copy(queue, self.buffer, data, device_offset=o)`
for a host payload `data`: write `data.length` bytes into the device buffer
at byte offset `o`.  Per the OpenCL contract (`clEnqueueWriteBuffer`), the
copy succeeds exactly when `[o, o + len(data))` lies within the allocation,
and otherwise fails with an invalid-value error (the spec's `RangeError`). -/
def enqueue_copy_to_device (b : BufferPyopencl) (data : List Nat)
    (device_offset : Nat) : Except Err BufferPyopencl :=
  if device_offset + data.length ≤ b.mem.length then
    .ok ⟨b.mem.take device_offset ++ data
          ++ b.mem.drop (device_offset + data.length)⟩
  else
    .error .RangeError

/-- Semantics of `cl.enqueue_copy(queue, data, self.buffer, device_offset=o)`
for a host destination of `dest_len` bytes: read `dest_len` bytes from the
device buffer starting at byte offset `o`.  Succeeds exactly when
`[o, o + dest_len)` lies within the allocation, else invalid-value
(`RangeError`). -/
def enqueue_copy_from_device (b : BufferPyopencl) (dest_len : Nat)
    (device_offset : Nat) : Except Err (List Nat) :=
  if device_offset + dest_len ≤ b.mem.length then
    .ok ((b.mem.drop device_offset).take dest_len)
  else
    .error .RangeError

/-- `BufferPyopencl.write(self, offset, data)`: copies the host payload into
the device buffer at `offset` via `cl.enqueue_copy(queue, self.buffer, data,
device_offset=offset)`. -/
def BufferPyopencl.write (b : BufferPyopencl) (offset : Nat)
    (data : List Nat) : Except Err BufferPyopencl :=
  enqueue_copy_to_device b data offset

/-- `BufferPyopencl.read(self, offset, size)`: allocates `bytearray(size)` on
the host and fills it via `cl.enqueue_copy(queue, data, self.buffer,
device_offset=offset)`, returning the bytes read. -/
def BufferPyopencl.read (b : BufferPyopencl) (offset size : Nat) :
    Except Err (List Nat) :=
  enqueue_copy_from_device b size offset

/-- Whether an `Except` computation completed without raising. -/
def isOk {ε α : Type} : Except ε α → Bool
  | .ok _ => true
  | .error _ => false

instance {ε α : Type} [DecidableEq ε] [DecidableEq α] :
    DecidableEq (Except ε α) := fun x y =>
  match x, y with
  | .ok a, .ok b =>
    if h : a = b then .isTrue (by rw [h])
    else .isFalse (by intro hc; injection hc; exact h (by assumption))
  | .ok _, .error _ => .isFalse (by intro hc; exact Except.noConfusion hc)
  | .error _, .ok _ => .isFalse (by intro hc; exact Except.noConfusion hc)
  | .error e, .error f =>
    if h : e = f then .isTrue (by rw [h])
    else .isFalse (by intro hc; injection hc; exact h (by assumption))

/-- Element dtypes of numerical-scalar argument types (the `_dtype` of an
xobjects scalar class such as `Float64` or `Int64`). -/
inductive DType where
  | float64
  | int64
  | uint8
  deriving DecidableEq, Repr

/-- The declared argument type `arg.atype`, classified exactly the way
`to_function_arg` probes it: a numerical scalar class has a `_dtype`
attribute, a compound xobject class has a `_size` attribute, anything else
has neither. -/
inductive AType where
  | scalar (dt : DType)
  | compound (size : Nat)
  | other
  deriving DecidableEq, Repr

/-- One declared kernel argument: its name, whether it is a pointer
argument, and its declared type. -/
structure ArgDesc where
  name : String
  pointer : Bool
  atype : AType
  deriving DecidableEq, Repr

/-- A value supplied at call time, classified the way `to_function_arg`
probes it with `hasattr`: a `pyopencl.array.Array` has a `dtype` attribute
and passes the `isinstance(value, cla.Array)` assertion (it carries a
device allocation id `base` and a byte offset); a host numpy array has a
`dtype` attribute but fails the `isinstance` assertion; an xobject array
has a `_shape` attribute and no `dtype`; a plain Python scalar has
neither attribute. -/
inductive Val where
  | clArray (base : Nat) (offset : Nat) (dtype : DType)
  | npArray (dtype : DType)
  | xobjArray
  | pyScalar (v : Int)
  deriving DecidableEq, Repr

/-- A marshaled native argument as produced by `to_function_arg`:
`ptr base offset` is `value.base_data[value.offset:]` (the backing device
buffer from the value's byte offset on); `castTo dt v` is `arg.atype(value)`
(the value cast to the declared numpy scalar type); `pyNone` is the implicit
Python `None` returned when the pointer/scalar branch falls through without
hitting a `return` or a `raise`. -/
inductive FArg where
  | ptr (base : Nat) (offset : Nat)
  | castTo (dt : DType) (v : Val)
  | pyNone
  deriving DecidableEq, Repr

/-- `KernelPyopencl.to_function_arg(self, arg, value)`, branch for branch:

* `arg.pointer` and `hasattr(arg.atype, "_dtype")`:
  * `hasattr(value, "dtype")`: `assert isinstance(value, cla.Array)` —
    a device array passes and `value.base_data[value.offset:]` is returned;
    a host numpy array fails the assertion (the spec's `TypeError`);
  * `hasattr(value, "_shape")`: `raise NotImplementedError`;
  * otherwise the inner `if` has no `else`, so the function returns `None`;
* `arg.pointer` and no `_dtype` on `arg.atype`: `raise ValueError`;
* not `arg.pointer`:
  * `hasattr(arg.atype, "_dtype")`: return `arg.atype(value)`;
  * `hasattr(arg.atype, "_size")`: `raise NotImplementedError`;
  * otherwise: `raise ValueError`. -/
def to_function_arg (arg : ArgDesc) (value : Val) : Except Err FArg :=
  if arg.pointer then
    match arg.atype with
    | .scalar _ =>
      match value with
      | .clArray base off _ => .ok (.ptr base off)
      | .npArray _ => .error .TypeError
      | .xobjArray => .error .NotImplementedError
      | .pyScalar _ => .ok .pyNone
    | .compound _ => .error .ValueError
    | .other => .error .ValueError
  else
    match arg.atype with
    | .scalar dt => .ok (.castTo dt value)
    | .compound _ => .error .NotImplementedError
    | .other => .error .ValueError

/-- The kernel's launch thread count source `description.n_threads`: either
a fixed integer or the name of a call-time argument to read it from. -/
inductive NThreads where
  | lit (n : Nat)
  | argname (s : String)
  deriving DecidableEq, Repr

/-- A kernel description: Python-facing name, optional native entry-point
name `c_name`, the ordered declared arguments, and the thread-count
source. -/
structure KernelDesc where
  pyname : String
  c_name : Option String
  args : List ArgDesc
  n_threads : NThreads
  deriving DecidableEq, Repr

/-- A resolved native kernel entry point, `getattr(prg, c_name)`: the built
program it came from and the entry-point name looked up in it. -/
structure NativeFun where
  progId : Nat
  entry : String
  deriving DecidableEq, Repr

/-- `KernelPyopencl`: a bound kernel — the native function, its description
and the owning context (flattened to the context's queue id).  The
constructor default for `wait_on_call` in the source is `True`. -/
structure KernelPyopencl where
  function : NativeFun
  description : KernelDesc
  queue : Nat
  wait_on_call : Bool
  deriving DecidableEq, Repr

/-- `KernelPyopencl.num_args`: the number of declared arguments. -/
def KernelPyopencl.num_args (k : KernelPyopencl) : Nat :=
  k.description.args.length

/-- Dictionary lookup `kwargs[name]` on the keyword-argument set, modelled
as an association list with unique keys. -/
def lookupArg (kwargs : List (String × Val)) (name : String) : Option Val :=
  (kwargs.find? (fun p => p.1 == name)).map (fun p => p.2)

/-- The marshaling loop of `KernelPyopencl.__call__`: for each declared
argument in order, `vv = kwargs[arg.name]` (a missing key raises
`KeyError`), then `to_function_arg(arg, vv)`; the first raise aborts the
loop. -/
def marshalArgs (args : List ArgDesc) (kwargs : List (String × Val)) :
    Except Err (List FArg) :=
  match args with
  | [] => .ok []
  | a :: rest =>
    match lookupArg kwargs a.name with
    | none => .error .KeyError
    | some vv =>
      match to_function_arg a vv with
      | .error e => .error e
      | .ok fa =>
        match marshalArgs rest kwargs with
        | .error e => .error e
        | .ok tl => .ok (fa :: tl)

/-- Resolution of the launch size: `kwargs[self.description.n_threads]`
when `n_threads` is a string, else the fixed integer itself. -/
def resolveNThreads (nt : NThreads) (kwargs : List (String × Val)) :
    Except Err Val :=
  match nt with
  | .lit n => .ok (.pyScalar n)
  | .argname s =>
    match lookupArg kwargs s with
    | some v => .ok v
    | none => .error .KeyError

/-- The native completion event returned by
`self.function(self.context.queue, (n_threads,), None, *arg_list)`: it
records the submitted launch. -/
structure Event where
  fn : NativeFun
  queue : Nat
  nthreads : Val
  args : List FArg
  deriving DecidableEq, Repr

/-- Outcome of a successful `__call__`: the returned event and whether the
call blocked on it (`event.wait()`) before returning. -/
structure CallResult where
  event : Event
  waited : Bool
  deriving DecidableEq, Repr

/-- `KernelPyopencl.__call__(self, **kwargs)`:
`assert len(kwargs.keys()) == self.num_args` first (its `AssertionError` is
the spec's `ArgumentCountError`; nothing is marshaled or submitted when it
fires), then the marshaling loop, then thread-count resolution, then the
launch producing the event; `event.wait()` when `wait_on_call`, and the
event is returned either way. -/
def KernelPyopencl.call (k : KernelPyopencl) (kwargs : List (String × Val)) :
    Except Err CallResult :=
  if kwargs.length = k.num_args then
    match marshalArgs k.description.args kwargs with
    | .error e => .error e
    | .ok arg_list =>
      match resolveNThreads k.description.n_threads kwargs with
      | .error e => .error e
      | .ok nthreads =>
        .ok ⟨⟨k.function, k.queue, nthreads, arg_list⟩, k.wait_on_call⟩
  else
    .error .ArgumentCountError

/-- The context's kernel dictionary `self._kernels`: a Python dict from
Python-facing kernel name to bound kernel. -/
def KDict : Type := String → Option KernelPyopencl

/-- Python dict assignment `self.kernels[pyname] = binding`. -/
def KDict.insert (m : KDict) (key : String) (v : KernelPyopencl) : KDict :=
  fun s => if s = key then some v else m s

/-- A built native program, `cl.Program(self.context, source).build()`,
identified by a build id. -/
structure Program where
  progId : Nat
  deriving DecidableEq, Repr

/-- `getattr(prg, c_name)`: resolve an entry point of the built program. -/
def Program.getattr (p : Program) (c_name : String) : NativeFun :=
  ⟨p.progId, c_name⟩

/-- The per-kernel loop of `ContextPyopencl.add_kernels` (the concatenation,
specialization and build of the sources having produced `prg`): for each
`(pyname, kernel)` in the supplied kernel dictionary, in order, assign
`kernel.c_name = pyname` when it is `None` — a mutation of the
caller-supplied description object — and store
`KernelPyopencl(getattr(prg, kernel.c_name), kernel, context)` under
`pyname` in the context's kernel dictionary (the constructor leaves
`wait_on_call` at its default `True`).  Returns the updated dictionary and
the kernel descriptions as the caller observes them after the call. -/
def add_kernels (kernelsMap : KDict) (prg : Program) (queue : Nat) :
    List (String × KernelDesc) → KDict × List (String × KernelDesc)
  | [] => (kernelsMap, [])
  | (pyname, kernel) :: rest =>
    let cname := kernel.c_name.getD pyname
    let kernel2 : KernelDesc := { kernel with c_name := some cname }
    let m := KDict.insert kernelsMap pyname
      ⟨prg.getattr cname, kernel2, queue, true⟩
    let res := add_kernels m prg queue rest
    (res.1, (pyname, kernel2) :: res.2)

/-- The view object built by `BufferPyopencl.to_nplike`: a
`pyopencl.array.Array` over `base_data` at a byte offset with a shape and,
when supplied to the constructor, an element dtype.  The source call
`cl.array.Array(queue, base_data=self.buffer, offset=offset, shape=shape)`
passes no `dtype`, so the field records `none` there. -/
structure ClArrayView where
  base : BufferPyopencl
  offset : Nat
  shape : List Nat
  dtype : Option DType
  deriving DecidableEq, Repr

/-- `BufferPyopencl.to_nplike(self, offset, dtype, shape)`: constructs the
view directly over `self.buffer` (no copy) at `offset` with `shape`. The
`dtype` parameter is not forwarded to the constructor. -/
def BufferPyopencl.to_nplike (b : BufferPyopencl) (offset : Nat)
    (dtype : DType) (shape : List Nat) : ClArrayView :=
  ⟨b, offset, shape, none⟩

/-- Whether an extent is an exact power of two — the reference predicate of
the spec's "power-of-two extent" wording, used to state where the source's
floating-point test diverges from it. -/
def isPow2 (n : Nat) : Bool :=
  (List.range (n + 1)).any (fun k => n == 2 ^ k)

/-- The Boolean value of the power-of-two assertion test of
`FFTPyopencl.__init__`,
`np.isclose(np.modf(np.log(nn)/np.log(2))[0], 0)`, at a natural extent:

* `nn = 0`: `np.log(0)` is `-inf`, the fractional part `np.modf(-inf)[0]`
  is `-0.0`, and `np.isclose(-0.0, 0)` holds — the test passes;
* `nn ≥ 1`: with `2^k ≤ nn < 2^(k+1)` (the bracketing exponent `k` is
  found by search below, rather than by a floor-log2 function, so that the
  definition evaluates inside the proof kernel) and `m = nn - 2^k`, the
  fractional part of `log2 nn` lies within the `isclose` tolerance of 0
  (`atol = 1e-8`; `rtol` contributes nothing against 0, and the fractional
  part is nonnegative) exactly when `log2 (1 + m/2^k) ≤ 1e-8`, i.e.
  `m ≤ 2^k ⋅ (2^(1e-8) - 1)`; the integer comparison below scales this by
  `10^21`, with `(2^(1e-8) - 1) ⋅ 10^21 = 6931471829622.10…`.

So the test accepts `0`, the exact powers of two, and the thin band of
extents just above each power of two whose `log2` is within `1e-8` of the
integer below it (for example `2^28 + 1`, but not `2^27 + 1`).  The
comparison reproduces the double-precision computation exactly for every
extent below `2^48`, verified against the C library at every band boundary
(powers of two themselves yield fractional part exactly `0.0` throughout
the double range); from `2^48` on, rounding of the `log` quotient can move
the band edge by a few units, and no statement below evaluates the test
there (the search caps the exponent at 64; no array extent approaches
either bound). -/
def pow2_float_test (n : Nat) : Bool :=
  n == 0 || (List.range 64).any (fun k =>
    decide (2 ^ k ≤ n) && decide (n < 2 ^ (k + 1)) &&
      decide ((n - 2 ^ k) * 1000000000000000000000
        ≤ 2 ^ k * 6931471829622))

/-- A constructed FFT plan: the native `gpyfft.fft.FFT` object built over
the context's queue for the bound array's shape and axes, with the
configured wait policy. -/
structure FFTPlan where
  queue : Nat
  shape : List Nat
  axes : List Nat
  wait_on_call : Bool
  deriving DecidableEq, Repr

/-- `FFTPyopencl.__init__(self, context, data, axes, wait_on_call)`, with
`data` represented by its shape: `max(axes)` (Python's `max` raises
`ValueError` on an empty sequence), then
`assert len(data.shape) > max(axes)`, then for each non-last transformed
axis `ii` in `axes[:-1]` the floating-point assertion
`np.isclose(np.modf(np.log(data.shape[ii])/np.log(2))[0], 0)` — embedded as
`pow2_float_test` — on `data.shape[ii]` (both assertion failures are the
spec's `ShapeError`), and only then `import gpyfft` and the construction of
the native plan object. -/
def fft_init (queue : Nat) (shape : List Nat) (axes : List Nat)
    (wait_on_call : Bool) : Except Err FFTPlan :=
  if axes.isEmpty then
    .error .ValueError
  else if shape.length > axes.foldl max 0 then
    if (axes.dropLast).all (fun ii => pow2_float_test (shape.getD ii 0)) then
      .ok ⟨queue, shape, axes, wait_on_call⟩
    else
      .error .ShapeError
  else
    .error .ShapeError

end XobjPyopencl

namespace XobjPyopencl

/-- Claim C1: for every buffer, offset and byte payload with
`[offset, offset + len(payload))` within capacity, `write(offset, payload)`
followed by `read(offset, len(payload))` returns exactly the payload. -/
theorem write_read_roundtrip (b : BufferPyopencl) (offset : Nat)
    (data : List Nat) (h : offset + data.length ≤ b.capacity) :
    (b.write offset data).bind (fun b2 => b2.read offset data.length)
      = .ok data := by
  unfold BufferPyopencl.capacity at h
  unfold BufferPyopencl.write enqueue_copy_to_device
  rw [if_pos h]
  unfold Except.bind BufferPyopencl.read enqueue_copy_from_device
  have hlen : (b.mem.take offset ++ data
      ++ b.mem.drop (offset + data.length)).length = b.mem.length := by
    simp only [List.length_append, List.length_take, List.length_drop]
    omega
  dsimp only
  rw [if_pos (by omega)]
  have htake : (b.mem.take offset).length = offset := by
    simp only [List.length_take]
    omega
  have hnil : (b.mem.take offset).drop offset = [] :=
    List.drop_eq_nil_of_le (by omega)
  rw [List.append_assoc, List.drop_append_of_le_length (by omega), hnil,
    List.nil_append, List.take_append_of_le_length (Nat.le_refl _),
    List.take_length]

/-- Witness for C1 at a concrete buffer: writing `[7, 9]` at offset 1 of a
4-byte buffer and reading 2 bytes back at offset 1 yields `[7, 9]`. -/
theorem write_read_roundtrip_witness :
    1 + 2 ≤ (BufferPyopencl.mk [0, 0, 0, 0]).capacity ∧
    ((BufferPyopencl.mk [0, 0, 0, 0]).write 1 [7, 9]).bind
      (fun b2 => b2.read 1 2) = .ok [7, 9] :=
  ⟨by decide, write_read_roundtrip ⟨[0, 0, 0, 0]⟩ 1 [7, 9] (by decide)⟩

/-- Claim C2: buffer `read`/`write` succeed exactly when
`offset + nbytes ≤ capacity` (offsets are byte offsets, hence nonnegative),
and any pair violating the bound fails with `RangeError`. -/
theorem rw_bounds (b : BufferPyopencl) (offset nbytes : Nat)
    (data : List Nat) (hd : data.length = nbytes) :
    (offset + nbytes ≤ b.capacity →
      isOk (b.write offset data) = true ∧ isOk (b.read offset nbytes) = true) ∧
    (b.capacity < offset + nbytes →
      b.write offset data = .error .RangeError ∧
      b.read offset nbytes = .error .RangeError) := by
  unfold BufferPyopencl.capacity
  unfold BufferPyopencl.write BufferPyopencl.read
  unfold enqueue_copy_to_device enqueue_copy_from_device
  subst hd
  constructor
  · intro h
    rw [if_pos h, if_pos h]
    exact ⟨rfl, rfl⟩
  · intro h
    rw [if_neg (by omega), if_neg (by omega)]
    exact ⟨rfl, rfl⟩

/-- Witness for C2 at a concrete buffer of capacity 3: the in-bounds pair
`(1, 2)` succeeds for both operations, and the out-of-bounds pair `(2, 2)`
fails with `RangeError` for both. -/
theorem rw_bounds_witness :
    (isOk ((BufferPyopencl.mk [5, 5, 5]).write 1 [8, 8]) = true ∧
      isOk ((BufferPyopencl.mk [5, 5, 5]).read 1 2) = true) ∧
    ((BufferPyopencl.mk [5, 5, 5]).write 2 [8, 8] = .error .RangeError ∧
      (BufferPyopencl.mk [5, 5, 5]).read 2 2 = .error .RangeError) :=
  ⟨(rw_bounds ⟨[5, 5, 5]⟩ 1 2 [8, 8] rfl).1 (by decide),
    (rw_bounds ⟨[5, 5, 5]⟩ 2 2 [8, 8] rfl).2 (by decide)⟩

/-- Claim C3: invoking a bound kernel with a named-argument set containing
one fewer or one more entry than the declared argument list fails with
`ArgumentCountError`; the equation holds for every keyword-argument set of
such a size — including sets whose values could never be marshaled — so the
check precedes all marshaling, and the error result carries no launch event,
so nothing is submitted to the device. -/
theorem call_count_mismatch (k : KernelPyopencl) (kwargs : List (String × Val))
    (h : kwargs.length + 1 = k.num_args ∨ kwargs.length = k.num_args + 1) :
    k.call kwargs = .error .ArgumentCountError := by
  unfold KernelPyopencl.call
  rw [if_neg (by omega)]

/-- Witness for C3 on a concrete one-argument kernel: calling with no
arguments (one missing) and with two arguments (one extra) both fail with
`ArgumentCountError`. -/
theorem call_count_mismatch_witness :
    (KernelPyopencl.mk ⟨0, "f"⟩ ⟨"f", some "f", [⟨"x", true, .scalar .float64⟩],
        .lit 1⟩ 0 true).call [] = .error .ArgumentCountError ∧
    (KernelPyopencl.mk ⟨0, "f"⟩ ⟨"f", some "f", [⟨"x", true, .scalar .float64⟩],
        .lit 1⟩ 0 true).call [("x", .pyScalar 1), ("y", .pyScalar 2)]
      = .error .ArgumentCountError :=
  ⟨call_count_mismatch _ [] (Or.inl (by decide)),
    call_count_mismatch _ [("x", .pyScalar 1), ("y", .pyScalar 2)]
      (Or.inr (by decide))⟩

/-- Counterexample to claim C5 as stated: for a pointer argument of
numerical-scalar element type, a plain Python scalar — a value that is not
a device-resident typed array — does not fail with `TypeError`: the inner
conditional of `to_function_arg` has no final `else`, so the function falls
through and marshals the argument as Python `None`. -/
theorem to_function_arg_scalar_value_no_error :
    to_function_arg ⟨"x", true, .scalar .float64⟩ (.pyScalar 5) = .ok .pyNone ∧
    to_function_arg ⟨"x", true, .scalar .float64⟩ (.pyScalar 5)
      ≠ .error .TypeError := by
  constructor
  · rfl
  · intro hcontra
    exact absurd hcontra (by decide)

/-- Claim C5 as amended: for a pointer argument with numerical-scalar
element type, a device-resident typed array has its backing buffer from its
byte offset passed as the native pointer argument; a value exposing a
`dtype` that is not a device array fails the `isinstance` assertion (the
spec's `TypeError`); a value exposing `_shape` fails with
`NotImplementedError`; any other value is marshaled as `None` without an
error. -/
theorem to_function_arg_pointer_scalar (arg : ArgDesc) (dt : DType)
    (hp : arg.pointer = true) (ha : arg.atype = .scalar dt) :
    (∀ base off vdt,
      to_function_arg arg (.clArray base off vdt) = .ok (.ptr base off)) ∧
    (∀ vdt, to_function_arg arg (.npArray vdt) = .error .TypeError) ∧
    to_function_arg arg .xobjArray = .error .NotImplementedError ∧
    (∀ n, to_function_arg arg (.pyScalar n) = .ok .pyNone) := by
  unfold to_function_arg
  rw [hp, ha]
  exact ⟨fun _ _ _ => rfl, fun _ => rfl, rfl, fun _ => rfl⟩

/-- Witness for the amended C5 on a concrete pointer argument of element
dtype `float64`: all four marshaling behaviours at concrete values. -/
theorem to_function_arg_pointer_scalar_witness :
    to_function_arg ⟨"x", true, .scalar .float64⟩ (.clArray 3 16 .float64)
      = .ok (.ptr 3 16) ∧
    to_function_arg ⟨"x", true, .scalar .float64⟩ (.npArray .float64)
      = .error .TypeError ∧
    to_function_arg ⟨"x", true, .scalar .float64⟩ .xobjArray
      = .error .NotImplementedError ∧
    to_function_arg ⟨"x", true, .scalar .float64⟩ (.pyScalar 5)
      = .ok .pyNone := by
  have h := to_function_arg_pointer_scalar ⟨"x", true, .scalar .float64⟩
    .float64 rfl rfl
  exact ⟨h.1 3 16 .float64, h.2.1 .float64, h.2.2.1, h.2.2.2 5⟩

/-- Counterexample to claim C6 as stated: a pointer argument declared with a
compound element type does not fail with `NotImplementedError` — the
compound class has no `_dtype` attribute, so the pointer branch of
`to_function_arg` takes its `else` and raises `ValueError`, for every
supplied value. -/
theorem to_function_arg_pointer_compound_not_nie :
    to_function_arg ⟨"s", true, .compound 16⟩ .xobjArray = .error .ValueError ∧
    to_function_arg ⟨"s", true, .compound 16⟩ .xobjArray
      ≠ .error .NotImplementedError := by
  constructor
  · rfl
  · intro hcontra
    exact absurd hcontra (by decide)

/-- Claim C6 as amended: for an argument declared with a compound
(structured) element type, marshaling always fails — by value with
`NotImplementedError`, but as a pointer with `ValueError` (the generic
invalid-value error, the spec's `ArgumentError`), whatever the supplied
value. -/
theorem to_function_arg_compound (arg : ArgDesc) (sz : Nat)
    (ha : arg.atype = .compound sz) (v : Val) :
    to_function_arg arg v
      = .error (if arg.pointer then .ValueError else .NotImplementedError) := by
  unfold to_function_arg
  rw [ha]
  by_cases hp : arg.pointer
  · rw [if_pos hp, if_pos hp]
  · rw [if_neg hp, if_neg hp]

/-- Witness for the amended C6 on concrete compound-typed arguments: the
by-value case fails with `NotImplementedError` and the pointer case with
`ValueError`. -/
theorem to_function_arg_compound_witness :
    to_function_arg ⟨"s", false, .compound 16⟩ (.pyScalar 1)
      = .error .NotImplementedError ∧
    to_function_arg ⟨"s", true, .compound 16⟩ (.pyScalar 1)
      = .error .ValueError :=
  ⟨to_function_arg_compound ⟨"s", false, .compound 16⟩ 16 rfl (.pyScalar 1),
    to_function_arg_compound ⟨"s", true, .compound 16⟩ 16 rfl (.pyScalar 1)⟩

/-- Claim C9: a successful invocation returns the native completion event
under either wait policy — two kernels identical except for `wait_on_call`
return the same event for the same arguments, the synchronous one after
blocking on it (`waited = true`) and the asynchronous one without waiting
(`waited = false`). -/
theorem call_returns_event (fn : NativeFun) (desc : KernelDesc) (q : Nat)
    (kwargs : List (String × Val)) (r1 r2 : CallResult)
    (h1 : (KernelPyopencl.mk fn desc q true).call kwargs = .ok r1)
    (h2 : (KernelPyopencl.mk fn desc q false).call kwargs = .ok r2) :
    r1.event = r2.event ∧ r1.waited = true ∧ r2.waited = false := by
  unfold KernelPyopencl.call KernelPyopencl.num_args at h1 h2
  by_cases hl : kwargs.length = desc.args.length
  · rw [if_pos hl] at h1 h2
    cases hm : marshalArgs desc.args kwargs with
    | error e => rw [hm] at h1; exact absurd h1 (by simp)
    | ok arg_list =>
      rw [hm] at h1 h2
      cases hn : resolveNThreads desc.n_threads kwargs with
      | error e => rw [hn] at h1; exact absurd h1 (by simp)
      | ok nthreads =>
        rw [hn] at h1 h2
        cases h1
        cases h2
        exact ⟨rfl, rfl, rfl⟩
  · rw [if_neg hl] at h1
    exact absurd h1 (by simp)

/-- Witness for C9 on a concrete kernel with one by-value argument: both
wait policies yield the same event, with `waited` true and false
respectively. -/
theorem call_returns_event_witness :
    (Event.mk ⟨0, "f"⟩ 0 (.pyScalar 4) [.castTo .int64 (.pyScalar 3)]
        = Event.mk ⟨0, "f"⟩ 0 (.pyScalar 4) [.castTo .int64 (.pyScalar 3)]) ∧
    (CallResult.mk (Event.mk ⟨0, "f"⟩ 0 (.pyScalar 4)
        [.castTo .int64 (.pyScalar 3)]) true).waited = true ∧
    (CallResult.mk (Event.mk ⟨0, "f"⟩ 0 (.pyScalar 4)
        [.castTo .int64 (.pyScalar 3)]) false).waited = false := by
  have h := call_returns_event ⟨0, "f"⟩
    ⟨"f", some "f", [⟨"n", false, .scalar .int64⟩], .lit 4⟩ 0
    [("n", .pyScalar 3)]
    ⟨⟨⟨0, "f"⟩, 0, .pyScalar 4, [.castTo .int64 (.pyScalar 3)]⟩, true⟩
    ⟨⟨⟨0, "f"⟩, 0, .pyScalar 4, [.castTo .int64 (.pyScalar 3)]⟩, false⟩
    (by decide) (by decide)
  exact ⟨h.1, h.2.1, h.2.2⟩

/-- Unfolding of `fft_init` for a nonempty axis list: the empty-sequence
branch of Python's `max` is not taken, leaving the two shape assertions. -/
theorem fft_init_cons (q : Nat) (shape : List Nat) (a : Nat) (t : List Nat)
    (w : Bool) :
    fft_init q shape (a :: t) w =
      if shape.length > (a :: t).foldl max 0 then
        if ((a :: t).dropLast).all
            (fun ii => pow2_float_test (shape.getD ii 0)) then
          .ok ⟨q, shape, a :: t, w⟩
        else .error .ShapeError
      else .error .ShapeError := rfl

/-- Counterexample to claim C4 as stated: extent 0 on the non-last
transformed axis is not a power of two — a violation of the claimed
validation — yet plan construction does not fail with `ShapeError`:
`np.log(0)` is `-inf`, whose `modf` fractional part `-0.0` satisfies
`np.isclose(-0.0, 0)`, so the assertion passes and construction proceeds to
the native plan. -/
theorem fft_plan_extent_zero_accepted :
    isPow2 0 = false ∧
    fft_init 0 [0, 4] [0, 1] true = .ok ⟨0, [0, 4], [0, 1], true⟩ :=
  ⟨rfl, rfl⟩

/-- Claim C4 as amended: transform-plan construction validates
`len(shape) > max(axes)` and runs the floating-point log2-integrality test
on every transformed axis except the last; construction succeeds exactly
when both hold, and any violation of them fails with `ShapeError` without
building a plan (the result is either the plan or `ShapeError`).  The
float test accepts every exact power of two (stated for extents below
`2^48`, the model's exact range), but also extent 0 and the extents whose
`log2` lies within the `1e-8` tolerance above an integer — `2^28 + 1`
passes while `2^27 + 1` fails — so not every non-power-of-two extent is
rejected.  In particular a non-last transformed axis of extent 6 fails and
extents `(8, 4)` with `axes = (0, 1)` succeed. -/
theorem fft_plan_validation (q : Nat) (shape axes : List Nat) (w : Bool)
    (h : axes ≠ []) :
    (isOk (fft_init q shape axes w) = true ↔
      (shape.length > axes.foldl max 0 ∧
        ∀ ii ∈ axes.dropLast, pow2_float_test (shape.getD ii 0) = true)) ∧
    (fft_init q shape axes w = .ok ⟨q, shape, axes, w⟩ ∨
      fft_init q shape axes w = .error .ShapeError) ∧
    (∀ n, n < 2 ^ 48 → isPow2 n = true → pow2_float_test n = true) ∧
    pow2_float_test (2 ^ 28 + 1) = true ∧
    pow2_float_test (2 ^ 27 + 1) = false ∧
    fft_init q [6, 4] [0, 1] w = .error .ShapeError ∧
    fft_init q [8, 4] [0, 1] w = .ok ⟨q, [8, 4], [0, 1], w⟩ := by
  have hpow : ∀ n, n < 2 ^ 48 → isPow2 n = true → pow2_float_test n = true := by
    intro n hn48 hn
    unfold isPow2 at hn
    rw [List.any_eq_true] at hn
    obtain ⟨k, _, hk⟩ := hn
    have hn2 : n = 2 ^ k := eq_of_beq hk
    subst hn2
    have hk48 : k < 48 := by
      by_contra hge
      push_neg at hge
      exact absurd hn48
        (Nat.not_lt.mpr (Nat.pow_le_pow_right (by omega) hge))
    unfold pow2_float_test
    rw [Bool.or_eq_true]
    right
    rw [List.any_eq_true]
    refine ⟨k, List.mem_range.mpr (by omega), ?_⟩
    simp only [Bool.and_eq_true, decide_eq_true_eq]
    refine ⟨⟨Nat.le_refl _, Nat.pow_lt_pow_succ (by omega)⟩, ?_⟩
    rw [Nat.sub_self, Nat.zero_mul]
    exact Nat.zero_le _
  cases axes with
  | nil => exact absurd rfl h
  | cons a t =>
    rw [fft_init_cons]
    by_cases h1 : shape.length > (a :: t).foldl max 0
    · rw [if_pos h1]
      by_cases h2 : ((a :: t).dropLast).all
          (fun ii => pow2_float_test (shape.getD ii 0)) = true
      · rw [if_pos h2]
        refine ⟨?_, Or.inl rfl, hpow, by decide, by decide, rfl, rfl⟩
        constructor
        · intro _
          exact ⟨h1, List.all_eq_true.mp h2⟩
        · intro _
          rfl
      · rw [if_neg h2]
        refine ⟨?_, Or.inr rfl, hpow, by decide, by decide, rfl, rfl⟩
        constructor
        · intro hc
          exact absurd hc (by decide)
        · intro hall
          exact absurd (List.all_eq_true.mpr hall.2) h2
    · rw [if_neg h1]
      refine ⟨?_, Or.inr rfl, hpow, by decide, by decide, rfl, rfl⟩
      constructor
      · intro hc
        exact absurd hc (by decide)
      · intro hall
        exact absurd hall.1 h1

/-- Witness for C4 at concrete plans: extent 6 on the non-last transformed
axis fails with `ShapeError`, and extents `(8, 4)` over `axes = (0, 1)`
succeed. -/
theorem fft_plan_validation_witness :
    fft_init 0 [6, 4] [0, 1] true = .error .ShapeError ∧
    fft_init 0 [8, 4] [0, 1] true = .ok ⟨0, [8, 4], [0, 1], true⟩ :=
  ⟨(fft_plan_validation 0 [6, 4] [0, 1] true (by decide)).2.2.2.2.2.1,
    (fft_plan_validation 0 [8, 4] [0, 1] true (by decide)).2.2.2.2.2.2⟩

/-- Claim C7: compiling a kernel set whose name is already bound in the
context's kernel dictionary replaces the earlier binding — afterwards the
lookup yields the binding to the entry point resolved in the newly built
program. -/
theorem add_kernels_replaces (m : KDict) (prg : Program) (q : Nat)
    (name : String) (k : KernelDesc) (old : KernelPyopencl)
    (hprev : m name = some old) :
    (add_kernels m prg q [(name, k)]).1 name =
      some ⟨prg.getattr (k.c_name.getD name),
        { k with c_name := some (k.c_name.getD name) }, q, true⟩ := by
  have hstep : (add_kernels m prg q [(name, k)]).1 =
      KDict.insert m name ⟨prg.getattr (k.c_name.getD name),
        { k with c_name := some (k.c_name.getD name) }, q, true⟩ := rfl
  rw [hstep]
  unfold KDict.insert
  rw [if_pos rfl]

/-- Witness for C7: a dictionary binding `"f"` to a kernel from program 1;
recompiling `"f"` against program 2 makes the lookup yield the program-2
binding. -/
theorem add_kernels_replaces_witness :
    (add_kernels
        (KDict.insert (fun _ => none) "f"
          ⟨⟨1, "f"⟩, ⟨"f", some "f", [], .lit 1⟩, 0, true⟩)
        ⟨2⟩ 0 [("f", ⟨"f", none, [], .lit 1⟩)]).1 "f" =
      some ⟨⟨2, "f"⟩, ⟨"f", some "f", [], .lit 1⟩, 0, true⟩ :=
  add_kernels_replaces
    (KDict.insert (fun _ => none) "f"
      ⟨⟨1, "f"⟩, ⟨"f", some "f", [], .lit 1⟩, 0, true⟩)
    ⟨2⟩ 0 "f" ⟨"f", none, [], .lit 1⟩
    ⟨⟨1, "f"⟩, ⟨"f", some "f", [], .lit 1⟩, 0, true⟩ rfl

/-- Claim C10: `add_kernels` mutates the caller-supplied kernel description:
an entry whose `c_name` is `None` has the Python-facing key assigned as its
`c_name` on the description object itself, visible to the caller after the
call returns. -/
theorem add_kernels_sets_cname (m : KDict) (prg : Program) (q : Nat)
    (pyname : String) (k : KernelDesc) (h : k.c_name = none) :
    (add_kernels m prg q [(pyname, k)]).2
      = [(pyname, { k with c_name := some pyname })] := by
  have hstep : (add_kernels m prg q [(pyname, k)]).2
      = [(pyname, { k with c_name := some (k.c_name.getD pyname) })] := rfl
  rw [hstep, h]
  rfl

/-- Witness for C10: a description with `c_name = None` registered under the
key `"f"` comes back with `c_name = "f"`. -/
theorem add_kernels_sets_cname_witness :
    (add_kernels (fun _ => none) ⟨1⟩ 0 [("f", ⟨"f", none, [], .lit 1⟩)]).2
      = [("f", ⟨"f", some "f", [], .lit 1⟩)] :=
  add_kernels_sets_cname (fun _ => none) ⟨1⟩ 0 "f" ⟨"f", none, [], .lit 1⟩ rfl

/-- Claim C8 (evaluation of the defect): `to_nplike` builds the view over
the buffer's own memory at the requested offset and shape — zero-copy and
aliasing as the spec says — but the `dtype` parameter is never forwarded to
the `pyopencl.array.Array` constructor, so the produced view does not carry
the requested dtype (the constructor call is made without a `dtype`
argument, contradicting the function's own signature and stated purpose). -/
theorem to_nplike_drops_dtype (b : BufferPyopencl) (offset : Nat)
    (dtype : DType) (shape : List Nat) :
    b.to_nplike offset dtype shape = ⟨b, offset, shape, none⟩ ∧
    (b.to_nplike offset dtype shape).dtype ≠ some dtype :=
  ⟨rfl, fun hc => Option.noConfusion hc⟩

end XobjPyopencl
